import Mathlib

/-!
Shallow embedding of the feed-ingestion pipeline of `bin/spurfeedingest.py`
(the `spur-enrichment-for-splunk` repository), covering the functions
`get_checkpoint`, `is_lock_stale`, `cleanup_stale_lock`, `acquire_lock` and
`process_feed`, together with theorems settling the frozen claims about them.

Modelling conventions:
* A payload line either parses as JSON or raises in `json.loads`; the record
  content is irrelevant to every claim, so a line is modelled as
  `FeedLine.good` / `FeedLine.bad`, and an emitted event is identified by the
  value of the running counter `processed` at the moment it is written.
* File-system state that the functions consult is passed in explicitly
  (checkpoint-file contents, lock-file metadata); effects the functions
  perform (checkpoint writes, sink writes, payload fetches, file reads) are
  returned explicitly in a result record.
* Machine integers do not overflow in the source (Python), so counters are
  `Nat` and times are `Int`.
-/

/-- A single line of the decompressed feed: `good` parses in `json.loads`,
`bad` raises there (caught by the per-line handler at
`spurfeedingest.py:746`). -/
inductive FeedLine
  | good
  | bad
deriving DecidableEq, Repr

/-- Number of lines of a payload that parse successfully; this is the final
value of the `processed` counter of `process_feed`. -/
def goodCount : List FeedLine → Nat
  | [] => 0
  | .good :: rest => goodCount rest + 1
  | .bad :: rest => goodCount rest

/-- The mutable state of the record loop of `process_feed`
(`spurfeedingest.py:721-747`, and the textually identical pre-download copy at
lines 654-680): the `processed` counter, the current `checkpoint["offset"]`,
the records written to the event sink so far (each identified by its
`processed` number), and the offsets carried by the periodic checkpoint
writes performed so far. -/
structure LoopState where
  processed : Nat
  offset : Nat
  emitted : List Nat
  writes : List Nat
deriving DecidableEq, Repr

/-- One iteration of the record loop (`spurfeedingest.py:722-747`):
a `bad` line raises in `json.loads` and is swallowed by the per-line
`except` (state unchanged); a `good` line increments `processed`, is skipped
when `processed < start_offset` (line 735), and otherwise is written to the
sink, updates `checkpoint["offset"] = processed`, and triggers a periodic
checkpoint write when `processed % 10000 == 0` and checkpoints are enabled
(lines 740-745). -/
def stepLine (en : Bool) (s : Nat) (st : LoopState) : FeedLine → LoopState
  | .bad => st
  | .good =>
    let p := st.processed + 1
    if p < s then
      { st with processed := p }
    else
      { processed := p
        offset := p
        emitted := st.emitted ++ [p]
        writes := if p % 10000 == 0 && en then st.writes ++ [p] else st.writes }

/-- The record loop of `process_feed` run over the whole payload, starting
from `processed = 0` and `checkpoint["offset"] = start_offset`
(`spurfeedingest.py:594,599`). -/
def runLoop (en : Bool) (s : Nat) (lines : List FeedLine) : LoopState :=
  lines.foldl (stepLine en s) ⟨0, s, [], []⟩

/-- The fields of a parsed checkpoint JSON object that `process_feed`
consults: `checkpoint.get("feed_identifier")`, `checkpoint.get
("completed_date")`, `checkpoint.get("last_touched_date")` and
`checkpoint["offset"]` (with `"offset" in checkpoint` as the presence test);
`none` models an absent key (Python `.get` returning `None`). -/
structure StoredCheckpoint where
  feed_identifier : Option String
  completed_date : Option String
  last_touched_date : Option String
  offset : Option Nat
deriving DecidableEq, Repr

/-- Observable state of a checkpoint file on disk: missing/unreadable
(`open` raises), present but not valid JSON (`json.loads` raises), a valid
empty JSON object (falsy in Python), or a valid non-empty object. -/
inductive CheckpointFile
  | absent
  | invalid
  | empty
  | valid (c : StoredCheckpoint)
deriving DecidableEq, Repr

/-- Embedding of `get_checkpoint` (`spurfeedingest.py:329-347`). When
checkpoints are disabled it returns the empty dict without touching the file;
a failure to open/read the file is swallowed by the bare `except` (line 338)
and yields the empty dict; but `json.loads` (line 341) sits outside that
`try`, so a file whose content does not parse raises, modelled as
`Except.error`. -/
def get_checkpoint (stored : CheckpointFile) (checkpoints_enabled : Bool) :
    Except Unit (Option StoredCheckpoint) :=
  if !checkpoints_enabled then .ok none
  else
    match stored with
    | .absent => .ok none
    | .invalid => .error ()
    | .empty => .ok none
    | .valid c => .ok (some c)

/-- Outcome of the skip/resume/restart decision of `process_feed`
(`spurfeedingest.py:570-590`). -/
inductive StartDecision
  | skip
  | start (offset : Nat)
deriving DecidableEq, Repr

/-- Embedding of the decision block `spurfeedingest.py:570-590`: with
checkpoints enabled and a truthy checkpoint dict, a matching
`feed_identifier` with `completed_date == today` skips the run; a matching
`feed_identifier` with `last_touched_date == today` and an `offset` key
resumes from that offset; anything else (including disabled checkpoints or an
empty dict) starts from offset 0. -/
def decideStart (enabled : Bool) (cpOpt : Option StoredCheckpoint)
    (fid today : String) : StartDecision :=
  match cpOpt with
  | some cp =>
    if enabled then
      if cp.feed_identifier = some fid ∧ cp.completed_date = some today then
        .skip
      else if cp.feed_identifier = some fid ∧ cp.last_touched_date = some today
          ∧ cp.offset.isSome then
        .start (cp.offset.getD 0)
      else
        .start 0
    else
      .start 0
  | none => .start 0

/-- Call site of a `write_checkpoint` performed during a run: the initial
write before fetching (`spurfeedingest.py:608-609`), a periodic write inside
the loop (lines 742-745), the write on the exception path (lines 752-754),
and the completion write (lines 773-775). -/
inductive WriteKind
  | initial
  | periodic
  | failure
  | final
deriving DecidableEq, Repr

/-- One `write_checkpoint` call, recording its call site and the value of
`checkpoint["offset"]` it persists. -/
structure CheckWrite where
  kind : WriteKind
  offset : Nat
deriving DecidableEq, Repr

/-- How a `process_feed` invocation terminates. -/
inductive Outcome
  | skippedLock
  | skippedDuplicate
  | errored
  | completed
deriving DecidableEq, Repr

/-- The externally observable effects of one `process_feed` invocation:
number of checkpoint-file read attempts, number of `cleanup_old_checkpoints`
calls, number of payload fetches (`get_feed_response` /
`download_feed_to_temp`), the sequence of `write_checkpoint` calls, the
records written to the event sink, the resolved start offset, and the
outcome. -/
structure RunResult where
  reads : Nat
  cleanups : Nat
  fetches : Nat
  writes : List CheckWrite
  emitted : List Nat
  startOffset : Nat
  outcome : Outcome
deriving DecidableEq, Repr

/-- The environment of one `process_feed` invocation: its arguments and the
responses of the outside world. `lockBusy` abstracts `acquire_lock`
returning no handle (`spurfeedingest.py:525-528`); `metadataError` a raise in
`get_feed_metadata` (line 536); `feed_identifier` the result of
`get_feed_identifier`; `stored` the checkpoint file for that identifier;
`fetchError` a raise while obtaining the payload; `stream_feed_identifier`
the `x-goog-generation` header of the payload response (line 688);
`actualStored` the checkpoint file for `stream_feed_identifier` (consulted at
line 701 when the identifier is upgraded from "unknown"); `lines` the lines
the decompressed stream yields; `streamError` a raise of the stream itself
after those lines (caught at line 751). -/
structure FeedEnv where
  feed_type : String
  checkpoints_enabled : Bool
  today : String
  feed_identifier : String
  stored : CheckpointFile
  actualStored : CheckpointFile
  lockBusy : Bool
  metadataError : Bool
  fetchError : Bool
  stream_feed_identifier : String
  lines : List FeedLine
  streamError : Bool
deriving DecidableEq, Repr

/-- Effective checkpoint flag: `spurfeedingest.py:514-515` forces
checkpointing off for the realtime feed type. -/
def effectiveEnabled (env : FeedEnv) : Bool :=
  if env.feed_type = "anonymous-residential/realtime" then false
  else env.checkpoints_enabled

/-- The duplicate test applied to the checkpoint of the identifier revealed
by the payload response (`spurfeedingest.py:704-706`): the dict is truthy,
its `feed_identifier` equals the revealed one and its `completed_date` is
today. -/
def dupCheck (acp : Option StoredCheckpoint) (sid today : String) : Bool :=
  match acp with
  | some c => (c.feed_identifier == some sid) && (c.completed_date == some today)
  | none => false

/-- The tail of a `process_feed` run once the payload stream is open: run the
record loop over the yielded lines (`spurfeedingest.py:721-747`), then set
`checkpoint["offset"] = processed` and either write the failure checkpoint
and re-raise (lines 751-764) or stamp completion and write the final
checkpoint (lines 766-775). -/
def loopFinish (env : FeedEnv) (enabled : Bool)
    (start_offset reads cleanups : Nat) (initialWrites : List CheckWrite) :
    RunResult :=
  let st := runLoop enabled start_offset env.lines
  let periodic := st.writes.map (fun p => CheckWrite.mk .periodic p)
  if env.streamError then
    { reads := reads, cleanups := cleanups, fetches := 1
      writes := initialWrites ++ periodic ++
        (if enabled then [CheckWrite.mk .failure st.processed] else [])
      emitted := st.emitted, startOffset := start_offset, outcome := .errored }
  else
    { reads := reads, cleanups := cleanups, fetches := 1
      writes := initialWrites ++ periodic ++
        (if enabled then [CheckWrite.mk .final st.processed] else [])
      emitted := st.emitted, startOffset := start_offset, outcome := .completed }

/-- The body of `process_feed` after the skip/resume decision
(`spurfeedingest.py:597-775`): write the initial checkpoint (lines 598-609),
fetch the payload (one fetch; a raise is the exception path with
`processed = 0`), apply the identifier-upgrade block for streams whose
`x-goog-generation` header differs from an "unknown" expectation (lines
693-719, including the duplicate re-check against the revealed identifier's
checkpoint and the extra `cleanup_old_checkpoints` call), then run the
record loop. -/
def runBody (env : FeedEnv) (enabled : Bool) (start_offset : Nat) : RunResult :=
  let reads0 : Nat := if enabled then 1 else 0
  let cleanups0 : Nat := if enabled then 1 else 0
  let initialWrites : List CheckWrite :=
    if enabled then [CheckWrite.mk .initial start_offset] else []
  if env.fetchError then
    { reads := reads0, cleanups := cleanups0, fetches := 1
      writes := initialWrites ++ (if enabled then [CheckWrite.mk .failure 0] else [])
      emitted := [], startOffset := start_offset, outcome := .errored }
  else
    if env.stream_feed_identifier ≠ env.feed_identifier
        ∧ env.feed_identifier = "unknown"
        ∧ env.stream_feed_identifier ≠ "unknown" then
      let reads1 := reads0 + (if enabled then 1 else 0)
      match get_checkpoint env.actualStored enabled with
      | .error _ =>
        { reads := reads1, cleanups := cleanups0, fetches := 1
          writes := initialWrites ++ (if enabled then [CheckWrite.mk .failure 0] else [])
          emitted := [], startOffset := start_offset, outcome := .errored }
      | .ok acp =>
        if enabled && dupCheck acp env.stream_feed_identifier env.today then
          { reads := reads1, cleanups := cleanups0, fetches := 1
            writes := initialWrites, emitted := []
            startOffset := start_offset, outcome := .skippedDuplicate }
        else
          loopFinish env enabled start_offset reads1
            (cleanups0 + (if enabled then 1 else 0)) initialWrites
    else
      loopFinish env enabled start_offset reads0 cleanups0 initialWrites

/-- Embedding of `process_feed` (`spurfeedingest.py:503-786`): force
checkpoints off for the realtime feed type, skip when the lock is held
elsewhere, propagate a metadata-fetch failure, run
`cleanup_old_checkpoints` and `get_checkpoint` when checkpoints are enabled
(lines 563-567; a checkpoint file that fails to parse raises here, before
any fetch or write), apply the skip/resume decision, and otherwise run the
body. -/
def process_feed (env : FeedEnv) : RunResult :=
  let enabled := effectiveEnabled env
  if env.lockBusy then
    { reads := 0, cleanups := 0, fetches := 0, writes := [], emitted := []
      startOffset := 0, outcome := .skippedLock }
  else if env.metadataError then
    { reads := 0, cleanups := 0, fetches := 0, writes := [], emitted := []
      startOffset := 0, outcome := .errored }
  else
    let reads0 : Nat := if enabled then 1 else 0
    let cleanups0 : Nat := if enabled then 1 else 0
    match get_checkpoint env.stored enabled with
    | .error _ =>
      { reads := reads0, cleanups := cleanups0, fetches := 0, writes := []
        emitted := [], startOffset := 0, outcome := .errored }
    | .ok cpOpt =>
      match decideStart enabled cpOpt env.feed_identifier env.today with
      | .skip =>
        { reads := reads0, cleanups := cleanups0, fetches := 0, writes := []
          emitted := [], startOffset := 0, outcome := .skippedDuplicate }
      | .start s => runBody env enabled s

/-- A `bad` line leaves the loop state unchanged. -/
lemma stepLine_bad (en : Bool) (s : Nat) (st : LoopState) :
    stepLine en s st .bad = st := rfl

/-- A `good` line increments `processed`, on both branches of the skip
test. -/
lemma stepLine_good_processed (en : Bool) (s : Nat) (st : LoopState) :
    (stepLine en s st .good).processed = st.processed + 1 := by
  simp only [stepLine]
  split <;> rfl

lemma goodCount_replicate (n : Nat) :
    goodCount (List.replicate n .good) = n := by
  induction n with
  | zero => rfl
  | succ k ih => simpa [List.replicate_succ, goodCount] using ih

lemma goodCount_append (l1 l2 : List FeedLine) :
    goodCount (l1 ++ l2) = goodCount l1 + goodCount l2 := by
  induction l1 with
  | nil => simp [goodCount]
  | cons hd tl ih =>
    cases hd
    · show goodCount (tl ++ l2) + 1 = goodCount tl + 1 + goodCount l2
      rw [ih]
      omega
    · show goodCount (tl ++ l2) = goodCount tl + goodCount l2
      exact ih

/-- The `processed` counter after folding the loop over a payload equals its
initial value plus the number of lines that parse. -/
lemma foldl_stepLine_processed (en : Bool) (s : Nat) :
    ∀ (lines : List FeedLine) (st : LoopState),
      (lines.foldl (stepLine en s) st).processed = st.processed + goodCount lines
  | [], st => by simp [goodCount]
  | .good :: rest, st => by
    rw [List.foldl_cons, foldl_stepLine_processed en s rest,
      stepLine_good_processed]
    show _ = st.processed + (goodCount rest + 1)
    omega
  | .bad :: rest, st => by
    rw [List.foldl_cons, stepLine_bad, foldl_stepLine_processed en s rest]
    rfl

/-- Closed form for the records emitted by the loop: the parsed-record
numbers in the processed range, filtered by the skip test of
`spurfeedingest.py:735`. -/
lemma foldl_stepLine_emitted (en : Bool) (s : Nat) :
    ∀ (lines : List FeedLine) (st : LoopState),
      (lines.foldl (stepLine en s) st).emitted =
        st.emitted ++ (List.range' (st.processed + 1) (goodCount lines)).filter
          (fun p => !(decide (p < s)))
  | [], st => by simp [goodCount]
  | .good :: rest, st => by
    rw [List.foldl_cons, foldl_stepLine_emitted en s rest]
    show _ = st.emitted ++
      (List.range' (st.processed + 1) (goodCount rest + 1)).filter _
    rw [List.range'_succ]
    by_cases h : st.processed + 1 < s
    · rw [List.filter_cons_of_neg (by simpa using h)]
      have h1 : stepLine en s st .good = { st with processed := st.processed + 1 } := by
        simp only [stepLine]
        rw [if_pos h]
      rw [h1]
    · rw [List.filter_cons_of_pos (by simpa using h)]
      have h1 : stepLine en s st .good =
          { processed := st.processed + 1, offset := st.processed + 1
            emitted := st.emitted ++ [st.processed + 1]
            writes := if (st.processed + 1) % 10000 == 0 && en then
                st.writes ++ [st.processed + 1] else st.writes } := by
        simp only [stepLine]
        rw [if_neg h]
      rw [h1]
      simp
  | .bad :: rest, st => by
    rw [List.foldl_cons, stepLine_bad, foldl_stepLine_emitted en s rest]
    rfl

/-- Closed form for the periodic-checkpoint offsets recorded by the loop:
the parsed-record numbers in the processed range that pass the skip test and
hit the 10,000 boundary, provided checkpoints are enabled. -/
lemma foldl_stepLine_writes (en : Bool) (s : Nat) :
    ∀ (lines : List FeedLine) (st : LoopState),
      (lines.foldl (stepLine en s) st).writes =
        st.writes ++ (List.range' (st.processed + 1) (goodCount lines)).filter
          (fun p => (!(decide (p < s))) && (p % 10000 == 0 && en))
  | [], st => by simp [goodCount]
  | .good :: rest, st => by
    rw [List.foldl_cons, foldl_stepLine_writes en s rest]
    show _ = st.writes ++
      (List.range' (st.processed + 1) (goodCount rest + 1)).filter _
    rw [List.range'_succ]
    by_cases h : st.processed + 1 < s
    · rw [List.filter_cons_of_neg (by simp [h])]
      have h1 : stepLine en s st .good = { st with processed := st.processed + 1 } := by
        simp only [stepLine]
        rw [if_pos h]
      rw [h1]
    · have h1 : stepLine en s st .good =
          { processed := st.processed + 1, offset := st.processed + 1
            emitted := st.emitted ++ [st.processed + 1]
            writes := if (st.processed + 1) % 10000 == 0 && en then
                st.writes ++ [st.processed + 1] else st.writes } := by
        simp only [stepLine]
        rw [if_neg h]
      rw [h1]
      by_cases hq : ((st.processed + 1) % 10000 == 0 && en) = true
      · rw [List.filter_cons_of_pos (by simp [h, hq])]
        simp [hq]
      · rw [List.filter_cons_of_neg (by simp [h]; simpa using hq)]
        simp only [if_neg hq]
  | .bad :: rest, st => by
    rw [List.foldl_cons, stepLine_bad, foldl_stepLine_writes en s rest]
    rfl

lemma runLoop_processed (en : Bool) (s : Nat) (lines : List FeedLine) :
    (runLoop en s lines).processed = goodCount lines := by
  simpa [runLoop] using foldl_stepLine_processed en s lines ⟨0, s, [], []⟩

lemma runLoop_emitted (en : Bool) (s : Nat) (lines : List FeedLine) :
    (runLoop en s lines).emitted =
      (List.range' 1 (goodCount lines)).filter (fun p => !(decide (p < s))) := by
  simpa [runLoop] using foldl_stepLine_emitted en s lines ⟨0, s, [], []⟩

lemma runLoop_writes (en : Bool) (s : Nat) (lines : List FeedLine) :
    (runLoop en s lines).writes =
      (List.range' 1 (goodCount lines)).filter
        (fun p => (!(decide (p < s))) && (p % 10000 == 0 && en)) := by
  simpa [runLoop] using foldl_stepLine_writes en s lines ⟨0, s, [], []⟩

/-- With checkpoints disabled the loop performs no periodic writes. -/
lemma runLoop_writes_disabled (s : Nat) (lines : List FeedLine) :
    (runLoop false s lines).writes = [] := by
  rw [runLoop_writes]
  exact List.filter_eq_nil_iff.mpr (fun a _ => by simp)

/-- A skip threshold of zero filters out nothing. -/
lemma filter_range_zero (k : Nat) :
    (List.range' 1 k).filter (fun p => !(decide (p < 0))) = List.range' 1 k :=
  List.filter_eq_self.mpr (fun a _ => by simp)

/-- Filtering the parsed-record range `1..k` by the skip test with resume
offset `s` keeps exactly the tail `s..k` (note record `s` itself is kept). -/
lemma filter_range_ge (s k : Nat) (h1 : 1 ≤ s) (h2 : s ≤ k + 1) :
    (List.range' 1 k).filter (fun p => !(decide (p < s))) =
      List.range' s (k + 1 - s) := by
  have hsplit : List.range' 1 (s - 1) ++ List.range' s (k + 1 - s) =
      List.range' 1 k := by
    have h := List.range'_append_1 1 (s - 1) (k + 1 - s)
    have e1 : 1 + (s - 1) = s := by omega
    have e2 : k + 1 - s + (s - 1) = k := by omega
    rw [e1, e2] at h
    exact h
  rw [← hsplit, List.filter_append]
  have hl : (List.range' 1 (s - 1)).filter (fun p => !(decide (p < s))) = [] := by
    rw [List.filter_eq_nil_iff]
    intro a ha
    rw [List.mem_range'_1] at ha
    have hlt : a < s := by omega
    simp [hlt]
  have hr : (List.range' s (k + 1 - s)).filter (fun p => !(decide (p < s))) =
      List.range' s (k + 1 - s) := by
    rw [List.filter_eq_self]
    intro a ha
    rw [List.mem_range'_1] at ha
    have hge : ¬ a < s := by omega
    simp [hge]
  rw [hl, hr, List.nil_append]

/-- Test environment for a resumable run: checkpoints enabled, lock free,
metadata and payload fetch succeed, the stored checkpoint for identifier
"gen1" was last touched today with offset `n` and is not completed, and the
payload response carries the expected identifier. -/
def resumeEnv (n : Nat) (lines : List FeedLine) (serr : Bool) : FeedEnv :=
  { feed_type := "anonymous"
    checkpoints_enabled := true
    today := "20261012"
    feed_identifier := "gen1"
    stored := .valid { feed_identifier := some "gen1", completed_date := none,
                       last_touched_date := some "20261012", offset := some n }
    actualStored := .absent
    lockBusy := false
    metadataError := false
    fetchError := false
    stream_feed_identifier := "gen1"
    lines := lines
    streamError := serr }

/-- Test environment for a first-time run: checkpoints enabled, lock free,
all fetches succeed, and no checkpoint exists yet for the identifier. -/
def freshEnv (lines : List FeedLine) (serr : Bool) : FeedEnv :=
  { feed_type := "anonymous"
    checkpoints_enabled := true
    today := "20261012"
    feed_identifier := "gen1"
    stored := .absent
    actualStored := .absent
    lockBusy := false
    metadataError := false
    fetchError := false
    stream_feed_identifier := "gen1"
    lines := lines
    streamError := serr }

/-- A resumable run resolves start offset `n`, performs one checkpoint read,
one cleanup and one fetch, writes the initial checkpoint at offset `n`, the
loop's periodic checkpoints, and a terminal checkpoint at the final
`processed` count — of failure kind when the stream raised, of completion
kind otherwise. -/
lemma process_feed_resumeEnv (n : Nat) (lines : List FeedLine) (serr : Bool) :
    process_feed (resumeEnv n lines serr) =
      { reads := 1, cleanups := 1, fetches := 1
        writes := CheckWrite.mk .initial n ::
          ((runLoop true n lines).writes.map (fun p => CheckWrite.mk .periodic p) ++
            [CheckWrite.mk (if serr then .failure else .final)
              (runLoop true n lines).processed])
        emitted := (runLoop true n lines).emitted
        startOffset := n
        outcome := if serr then .errored else .completed } := by
  cases serr <;> rfl

/-- A first-time run resolves start offset 0 and otherwise behaves like the
resumable run. -/
lemma process_feed_freshEnv (lines : List FeedLine) (serr : Bool) :
    process_feed (freshEnv lines serr) =
      { reads := 1, cleanups := 1, fetches := 1
        writes := CheckWrite.mk .initial 0 ::
          ((runLoop true 0 lines).writes.map (fun p => CheckWrite.mk .periodic p) ++
            [CheckWrite.mk (if serr then .failure else .final)
              (runLoop true 0 lines).processed])
        emitted := (runLoop true 0 lines).emitted
        startOffset := 0
        outcome := if serr then .errored else .completed } := by
  cases serr <;> rfl

/-- With checkpoints disabled, `get_checkpoint` returns the empty dict
without attempting to open the file, whatever its state. -/
lemma get_checkpoint_disabled (st : CheckpointFile) :
    get_checkpoint st false = .ok none := rfl

lemma loopFinish_disabled (env : FeedEnv) (s reads cleanups : Nat) :
    (loopFinish env false s reads cleanups []).writes = [] ∧
    (loopFinish env false s reads cleanups []).reads = reads ∧
    (loopFinish env false s reads cleanups []).startOffset = s := by
  simp only [loopFinish]
  by_cases hs : env.streamError = true
  · rw [if_pos hs]
    refine ⟨?_, rfl, rfl⟩
    simp [runLoop_writes_disabled]
  · rw [if_neg hs]
    refine ⟨?_, rfl, rfl⟩
    simp [runLoop_writes_disabled]

/-- With checkpoints disabled, the run body performs no checkpoint reads and
no checkpoint writes. -/
lemma runBody_disabled (env : FeedEnv) (s : Nat) :
    (runBody env false s).reads = 0 ∧ (runBody env false s).writes = [] ∧
    (runBody env false s).startOffset = s := by
  simp only [runBody]
  by_cases hf : env.fetchError = true
  · rw [if_pos hf]
    exact ⟨rfl, by simp, rfl⟩
  · rw [if_neg hf]
    by_cases hsw : env.stream_feed_identifier ≠ env.feed_identifier
        ∧ env.feed_identifier = "unknown" ∧ env.stream_feed_identifier ≠ "unknown"
    · rw [if_pos hsw, get_checkpoint_disabled]
      obtain ⟨hw, hr, hs0⟩ := loopFinish_disabled env s 0 0
      exact ⟨hr, hw, hs0⟩
    · rw [if_neg hsw]
      obtain ⟨hw, hr, hs0⟩ := loopFinish_disabled env s 0 0
      exact ⟨hr, hw, hs0⟩

/-- Any run whose effective checkpoint flag is off performs no checkpoint
reads, no checkpoint writes, and starts from offset 0. -/
lemma process_feed_disabled (env : FeedEnv)
    (hE : effectiveEnabled env = false) :
    (process_feed env).reads = 0 ∧ (process_feed env).writes = [] ∧
    (process_feed env).startOffset = 0 := by
  simp only [process_feed, hE]
  by_cases hb : env.lockBusy = true
  · rw [if_pos hb]
    exact ⟨rfl, rfl, rfl⟩
  · rw [if_neg hb]
    by_cases hm : env.metadataError = true
    · rw [if_pos hm]
      exact ⟨rfl, rfl, rfl⟩
    · rw [if_neg hm, get_checkpoint_disabled]
      exact runBody_disabled env 0

/-- When checkpoints are effectively enabled and the stored checkpoint for
the resolved identifier carries that identifier with `completed_date` equal
to today, the run is skipped before any payload fetch or sink write
(`spurfeedingest.py:572-577`). -/
lemma process_feed_skip (env : FeedEnv) (cp : StoredCheckpoint)
    (hE : effectiveEnabled env = true)
    (hlock : env.lockBusy = false) (hmeta : env.metadataError = false)
    (hstored : env.stored = CheckpointFile.valid cp)
    (hcpid : cp.feed_identifier = some env.feed_identifier)
    (hdone : cp.completed_date = some env.today) :
    process_feed env =
      { reads := 1, cleanups := 1, fetches := 0, writes := [], emitted := []
        startOffset := 0, outcome := .skippedDuplicate } := by
  have hd : decideStart true (some cp) env.feed_identifier env.today =
      .skip := by
    simp [decideStart, hcpid, hdone]
  have hg : get_checkpoint (CheckpointFile.valid cp) true =
      .ok (some cp) := rfl
  simp only [process_feed, hE, hlock, hmeta, hstored, hg, hd]
  simp

/-- The offsets persisted by the run's checkpoint writes, in write order. -/
def offsetsOf (r : RunResult) : List Nat := r.writes.map (fun w => w.offset)

/-- Boolean observer: every checkpoint write of the run persists an offset at
least `prev` (the previously persisted offset). -/
def noRegressB (prev : Nat) (r : RunResult) : Bool :=
  r.writes.all (fun w => decide (prev ≤ w.offset))

/-- Boolean observer: a list of offsets is non-decreasing. -/
def nonDecreasing : List Nat → Bool
  | [] => true
  | [_] => true
  | a :: b :: rest => decide (a ≤ b) && nonDecreasing (b :: rest)

/-- The offsets persisted by the run's periodic checkpoint writes only. -/
def periodicOffsets (r : RunResult) : List Nat :=
  (r.writes.filter (fun w => w.kind == WriteKind.periodic)).map (fun w => w.offset)

/-- The formal reading of the periodic-checkpoint claim: whenever the run has
emitted at least `10000·k` records, the offset current at the `10000·k`-th
emission (the parsed-record number of that record) was persisted by a
periodic checkpoint write. -/
def periodicMilestones (r : RunResult) : Prop :=
  ∀ k, 0 < k → 10000 * k ≤ r.emitted.length →
    r.emitted.getD (10000 * k - 1) 0 ∈ periodicOffsets r

lemma nonDecreasing_of_pairwise :
    ∀ {l : List Nat}, l.Pairwise (· ≤ ·) → nonDecreasing l = true
  | [], _ => rfl
  | [_], _ => rfl
  | a :: b :: rest, h => by
    rw [List.pairwise_cons] at h
    have hab : a ≤ b := h.1 b (by simp)
    have ht := nonDecreasing_of_pairwise h.2
    simp [nonDecreasing, hab, ht]

/-- Characterization of a periodic-write offset of the loop over an all-good
payload of `k` lines with resume offset `s`: it lies in `s..k` (and in
`1..k`), is a multiple of 10,000, and checkpoints were enabled. -/
lemma mem_loop_writes (en : Bool) (s k x : Nat)
    (hx : x ∈ (runLoop en s (List.replicate k .good)).writes) :
    s ≤ x ∧ 1 ≤ x ∧ x ≤ k ∧ x % 10000 = 0 ∧ en = true := by
  rw [runLoop_writes, goodCount_replicate] at hx
  rw [List.mem_filter, List.mem_range'_1] at hx
  obtain ⟨⟨hx1, hx2⟩, hq⟩ := hx
  simp only [Bool.and_eq_true, Bool.not_eq_true', decide_eq_false_iff_not,
    beq_iff_eq, Nat.not_lt] at hq
  exact ⟨by omega, by omega, by omega, by simpa using hq.2.1, hq.2.2⟩

/-- The loop's periodic-write offsets are strictly increasing. -/
lemma pairwise_loop_writes (en : Bool) (s : Nat) (lines : List FeedLine) :
    List.Pairwise (· < ·) (runLoop en s lines).writes := by
  rw [runLoop_writes]
  exact (List.pairwise_lt_range' 1 (goodCount lines)).filter _

/-- Periodic-write offsets of the loop are multiples of 10,000 (the write
fires on `processed % 10000 == 0`, `spurfeedingest.py:740`). -/
lemma mod_loop_writes (en : Bool) (s : Nat) (lines : List FeedLine) (x : Nat)
    (hx : x ∈ (runLoop en s lines).writes) : x % 10000 = 0 := by
  rw [runLoop_writes, List.mem_filter] at hx
  obtain ⟨-, hq⟩ := hx
  simp only [Bool.and_eq_true, beq_iff_eq] at hq
  simpa using hq.2.1

/-- For the resume test environment, the periodic offsets of the whole run
are exactly the loop's periodic writes. -/
lemma periodicOffsets_resumeEnv (n : Nat) (lines : List FeedLine) (serr : Bool) :
    periodicOffsets (process_feed (resumeEnv n lines serr)) =
      (runLoop true n lines).writes := by
  rw [process_feed_resumeEnv]
  cases serr <;>
    simp [periodicOffsets, List.filter_map, Function.comp_def, List.map_map]

/-- For the fresh test environment, the periodic offsets of the whole run
are exactly the loop's periodic writes. -/
lemma periodicOffsets_freshEnv (lines : List FeedLine) (serr : Bool) :
    periodicOffsets (process_feed (freshEnv lines serr)) =
      (runLoop true 0 lines).writes := by
  rw [process_feed_freshEnv]
  cases serr <;>
    simp [periodicOffsets, List.filter_map, Function.comp_def, List.map_map]

/-- For the resume test environment, the offsets persisted by the run are
the initial write at the resume offset, the loop's periodic writes, and the
terminal write at the final parsed count. -/
lemma offsetsOf_resumeEnv (n : Nat) (lines : List FeedLine) (serr : Bool) :
    offsetsOf (process_feed (resumeEnv n lines serr)) =
      n :: ((runLoop true n lines).writes ++ [goodCount lines]) := by
  rw [process_feed_resumeEnv]
  cases serr <;>
    simp [offsetsOf, List.map_map, Function.comp_def, runLoop_processed]

/-- Observable state of the lock file for the staleness check: absent
(`os.path.exists` returns false), present but `os.path.getmtime` raises, or
present with a readable modification time. -/
inductive LockFileState
  | absent
  | unreadable
  | present (mtime : Int)
deriving DecidableEq, Repr

/-- Embedding of `is_lock_stale` (`spurfeedingest.py:52-70`): an absent file
is stale (line 63-64); a `getmtime` failure is stale (the `except` at lines
69-70); otherwise the lock is stale exactly when `time.time() - mtime`
strictly exceeds the threshold (line 67-68, default 86400 seconds). -/
def is_lock_stale (now : Int) (f : LockFileState)
    (max_age_seconds : Int := 86400) : Bool :=
  match f with
  | .absent => true
  | .unreadable => true
  | .present m => now - m > max_age_seconds

/-- Embedding of `cleanup_stale_lock` (`spurfeedingest.py:144-164`): when
`is_lock_stale` holds and the file exists, remove it (removal modelled as
succeeding) and return true; in every other case leave the file alone and
return false. The result is the new file state paired with the
removed-flag. -/
def cleanup_stale_lock (now : Int) (f : LockFileState)
    (max_age_seconds : Int := 86400) : LockFileState × Bool :=
  if is_lock_stale now f max_age_seconds then
    match f with
    | .absent => (f, false)
    | _ => (.absent, true)
  else (f, false)

/-- The lock file as `acquire_lock` manipulates it: its content (`none` when
the file is absent) and its modification time. -/
structure LockFsState where
  fileContent : Option String
  fileMtime : Int
deriving DecidableEq, Repr

/-- The holder metadata serialized into the lock file on successful
acquisition (`spurfeedingest.py:98-103`); its exact JSON layout is
irrelevant to the claims, only that it is the content after a successful
acquisition. -/
def lockInfoJson (pid : Nat) (now : Int) : String :=
  "pid:" ++ toString pid ++ ",timestamp:" ++ toString now

/-- Embedding of `acquire_lock` (`spurfeedingest.py:73-115`) for the case
where the directory exists and `open` succeeds: `open(lock_file_path, "w")`
(line 92) creates or truncates the file — its content becomes empty and its
modification time becomes `now` — before the lock is attempted; the
non-blocking `flock` (line 96) raises `IOError` when another process holds
the lock, in which case the file is merely closed and `None` is returned
(lines 107-111) — the truncation is not undone; on success the holder
metadata is written (lines 97-106). -/
def acquire_lock (heldByOther : Bool) (pid : Nat) (now : Int)
    (_fs : LockFsState) : Option Unit × LockFsState :=
  let fsOpened : LockFsState := { fileContent := some "", fileMtime := now }
  if heldByOther then (none, fsOpened)
  else (some (), { fileContent := some (lockInfoJson pid now), fileMtime := now })

/-- C3 counterexample: a checkpoint file whose content fails to parse as
JSON makes `get_checkpoint` raise (the `json.loads` at
`spurfeedingest.py:341` sits outside the `try`), rather than return the
empty checkpoint as the claim states. -/
theorem C3_counterexample :
    get_checkpoint CheckpointFile.invalid true = Except.error () := rfl

/-- C3 amended: `get_checkpoint` returns the empty checkpoint when
checkpoints are disabled and when the file is missing or unreadable, and it
returns the parsed content of a readable valid file; but a readable file
whose content fails to parse as JSON raises, and that error propagates. -/
theorem C3_amended :
    (∀ f, get_checkpoint f false = Except.ok none) ∧
    (∀ e, get_checkpoint CheckpointFile.absent e = Except.ok none) ∧
    get_checkpoint CheckpointFile.invalid true = Except.error () ∧
    (∀ c, get_checkpoint (CheckpointFile.valid c) true = Except.ok (some c)) := by
  refine ⟨fun f => rfl, fun e => ?_, rfl, fun c => rfl⟩
  cases e <;> rfl

/-- C8: `is_lock_stale` returns true exactly when the lock file is absent,
unreadable, or has a modification time more than the threshold in the past;
`cleanup_stale_lock` removes the file only in that case, so a lock file
younger than the threshold is never removed, and an absent lock file counts
as stale (trivially acquirable). -/
theorem C8_stale_lock (now max_age : Int) (f : LockFileState) :
    (is_lock_stale now f max_age = true ↔
      f = .absent ∨ f = .unreadable ∨
        ∃ m, f = .present m ∧ now - m > max_age) ∧
    ((cleanup_stale_lock now f max_age).2 = true →
      is_lock_stale now f max_age = true) ∧
    (∀ m, f = .present m → now - m ≤ max_age →
      cleanup_stale_lock now f max_age = (f, false)) ∧
    is_lock_stale now .absent max_age = true := by
  refine ⟨?_, ?_, ?_, rfl⟩
  · cases f with
    | absent => simp [is_lock_stale]
    | unreadable => simp [is_lock_stale]
    | present m => simp [is_lock_stale]
  · intro h
    by_contra hns
    unfold cleanup_stale_lock at h
    rw [if_neg hns] at h
    exact Bool.false_ne_true h
  · intro m hm hle
    subst hm
    have hns : ¬ is_lock_stale now (LockFileState.present m) max_age = true := by
      simp only [is_lock_stale, decide_eq_true_eq]
      omega
    unfold cleanup_stale_lock
    rw [if_neg hns]

/-- C8 witness: a lock whose modification time lies 99999 seconds in the
past is stale for the default 86400-second threshold. -/
theorem C8_stale_lock_witness :
    is_lock_stale 100000 (LockFileState.present 1) 86400 = true :=
  (C8_stale_lock 100000 86400 (LockFileState.present 1)).1.mpr
    (Or.inr (Or.inr ⟨1, rfl, by decide⟩))

/-- C10: when the lock is flock-held by another process, `acquire_lock`
returns no handle, yet it has already opened the file in write mode — the
holder's recorded metadata is truncated away and the modification time is
refreshed to the acquisition attempt's time. -/
theorem C10_failed_acquire_truncates (pid : Nat) (now : Int) (fs : LockFsState) :
    acquire_lock true pid now fs =
      (none, { fileContent := some "", fileMtime := now }) := rfl

/-- C1 counterexample: resuming a 2-record payload from checkpoint offset
N = 1 re-emits record 1 (the skip test `processed < start_offset` at
`spurfeedingest.py:735` lets the record numbered exactly `start_offset`
through), so the emitted records are 1 and 2 rather than only 2, and a
record numbered at most N is re-emitted. -/
theorem C1_counterexample :
    (process_feed (resumeEnv 1 (List.replicate 2 .good) false)).startOffset = 1 ∧
    (process_feed (resumeEnv 1 (List.replicate 2 .good) false)).emitted = [1, 2] ∧
    1 ∈ (process_feed (resumeEnv 1 (List.replicate 2 .good) false)).emitted := by
  decide

/-- C1 amended: resuming a K-record payload from checkpoint offset N
(0 < N ≤ K) for the same feed identifier emits exactly records N..K — the
record at the resume offset itself is re-emitted once — and never re-emits
records 1..N-1. -/
theorem C1_amended (n k : Nat) (h1 : 0 < n) (h2 : n ≤ k) :
    (process_feed (resumeEnv n (List.replicate k .good) false)).emitted =
      List.range' n (k + 1 - n) ∧
    (∀ j, j < n →
      j ∉ (process_feed (resumeEnv n (List.replicate k .good) false)).emitted) := by
  have he : (process_feed (resumeEnv n (List.replicate k .good) false)).emitted =
      List.range' n (k + 1 - n) := by
    rw [process_feed_resumeEnv]
    show (runLoop true n (List.replicate k .good)).emitted = _
    rw [runLoop_emitted, goodCount_replicate, filter_range_ge n k h1 (by omega)]
  refine ⟨he, ?_⟩
  intro j hj hmem
  rw [he, List.mem_range'_1] at hmem
  omega

/-- C1 amended witness: at N = 1, K = 2 the emitted records are 1 and 2. -/
theorem C1_amended_witness :
    (process_feed (resumeEnv 1 (List.replicate 2 .good) false)).emitted =
      List.range' 1 2 :=
  (C1_amended 1 2 (by decide) (by decide)).1

/-- C2 counterexample: a run resuming from persisted offset 5 whose stream
fails after yielding 2 records performs the exception-path checkpoint write
(`spurfeedingest.py:752-754`) with offset 2 < 5, regressing the persisted
offset; the run's writes carry offsets 5 (initial) then 2 (failure). -/
theorem C2_counterexample :
    (process_feed (resumeEnv 5 [.good, .good] true)).startOffset = 5 ∧
    offsetsOf (process_feed (resumeEnv 5 [.good, .good] true)) = [5, 2] ∧
    noRegressB 5 (process_feed (resumeEnv 5 [.good, .good] true)) = false := by
  decide

/-- C2 amended: in a run resuming from offset N over a payload whose parsed
records re-reach the resume point (N ≤ K records, here an all-good payload
of K lines), every checkpoint write — initial, periodic, and the terminal
write of either kind — carries an offset at least N, and the persisted
offsets are non-decreasing in write order; the regression is confined to
runs whose parsed count ends below the resume offset. -/
theorem C2_amended (n k : Nat) (serr : Bool) (_h1 : 0 < n) (h2 : n ≤ k) :
    noRegressB n (process_feed (resumeEnv n (List.replicate k .good) serr)) = true ∧
    nonDecreasing
      (offsetsOf (process_feed (resumeEnv n (List.replicate k .good) serr))) = true := by
  have hoff := offsetsOf_resumeEnv n (List.replicate k .good) serr
  rw [goodCount_replicate] at hoff
  have hmem : ∀ x,
      x ∈ offsetsOf (process_feed (resumeEnv n (List.replicate k .good) serr)) →
      n ≤ x ∧ x ≤ k := by
    intro x hx
    rw [hoff] at hx
    rcases List.mem_cons.mp hx with hx | hx
    · exact ⟨by omega, by omega⟩
    · rcases List.mem_append.mp hx with hx | hx
      · obtain ⟨ha, -, hb, -, -⟩ := mem_loop_writes true n k x hx
        exact ⟨ha, hb⟩
      · simp only [List.mem_singleton] at hx
        exact ⟨by omega, by omega⟩
  constructor
  · rw [noRegressB, List.all_eq_true]
    intro w hw
    have hwo : w.offset ∈
        offsetsOf (process_feed (resumeEnv n (List.replicate k .good) serr)) :=
      List.mem_map_of_mem (fun w => w.offset) hw
    simp only [decide_eq_true_eq]
    exact (hmem w.offset hwo).1
  · rw [hoff]
    apply nonDecreasing_of_pairwise
    rw [List.pairwise_cons]
    refine ⟨?_, ?_⟩
    · intro x hx
      have hx2 : x ∈
          offsetsOf (process_feed (resumeEnv n (List.replicate k .good) serr)) := by
        rw [hoff]
        exact List.mem_cons_of_mem _ hx
      exact (hmem x hx2).1
    · rw [List.pairwise_append]
      refine ⟨(pairwise_loop_writes true n (List.replicate k .good)).imp
        (fun h => le_of_lt h), List.pairwise_singleton _ _, ?_⟩
      intro x hx y hy
      simp only [List.mem_singleton] at hy
      have hxk := (mem_loop_writes true n k x hx).2.2.1
      omega

/-- C2 amended witness: at N = 1, K = 2 with no stream failure, no write
regresses and the persisted offsets are non-decreasing. -/
theorem C2_amended_witness :
    noRegressB 1 (process_feed (resumeEnv 1 (List.replicate 2 .good) false)) = true ∧
    nonDecreasing
      (offsetsOf (process_feed (resumeEnv 1 (List.replicate 2 .good) false))) = true :=
  C2_amended 1 2 false (by decide) (by decide)

/-- Test environment for C4: both today's earlier run and the current run
resolved the identifier "unknown"; the earlier run completed today and
persisted that in the checkpoint file named after "unknown". -/
def unknownEnv : FeedEnv :=
  { feed_type := "anonymous"
    checkpoints_enabled := true
    today := "20261012"
    feed_identifier := "unknown"
    stored := .valid { feed_identifier := some "unknown",
                       completed_date := some "20261012",
                       last_touched_date := some "20261012", offset := some 7 }
    actualStored := .absent
    lockBusy := false
    metadataError := false
    fetchError := false
    stream_feed_identifier := "unknown"
    lines := [.good]
    streamError := false }

/-- C4 counterexample: a run whose identifier resolves to "unknown" IS
skipped as a duplicate when the persisted checkpoint carries
`feed_identifier = "unknown"` and `completed_date` equal to today — the
duplicate test at `spurfeedingest.py:574-575` compares identifiers by plain
equality with no special case for "unknown". -/
theorem C4_counterexample :
    (process_feed unknownEnv).outcome = Outcome.skippedDuplicate ∧
    (process_feed unknownEnv).fetches = 0 ∧
    (process_feed unknownEnv).emitted = [] := by
  decide

/-- C4 amended: "unknown" identifiers are compared like any other string by
the duplicate-skip test: whenever the resolved identifier is "unknown" and
the stored checkpoint carries `feed_identifier = "unknown"` with
`completed_date` equal to today, the run is skipped as a duplicate (the
resolver is re-run each time, and "unknown" is upgraded to the real
identifier only when the payload response later reveals one). -/
theorem C4_amended (env : FeedEnv) (cp : StoredCheckpoint)
    (hft : env.feed_type ≠ "anonymous-residential/realtime")
    (hen : env.checkpoints_enabled = true)
    (hlock : env.lockBusy = false) (hmeta : env.metadataError = false)
    (hstored : env.stored = CheckpointFile.valid cp)
    (hfid : env.feed_identifier = "unknown")
    (hcpid : cp.feed_identifier = some "unknown")
    (hdone : cp.completed_date = some env.today) :
    (process_feed env).outcome = Outcome.skippedDuplicate := by
  have hE : effectiveEnabled env = true := by
    simp [effectiveEnabled, hft, hen]
  have hcpid2 : cp.feed_identifier = some env.feed_identifier := by
    rw [hcpid, hfid]
  rw [process_feed_skip env cp hE hlock hmeta hstored hcpid2 hdone]

/-- C4 amended witness: the concrete "unknown"-vs-"unknown" scenario is
skipped as a duplicate. -/
theorem C4_amended_witness :
    (process_feed unknownEnv).outcome = Outcome.skippedDuplicate :=
  C4_amended unknownEnv
    { feed_identifier := some "unknown", completed_date := some "20261012",
      last_touched_date := some "20261012", offset := some 7 }
    (by decide) rfl rfl rfl rfl rfl rfl rfl

/-- C5: with checkpoints effectively enabled, when the stored checkpoint for
the resolved feed identifier carries that identifier and
`completed_date` equal to today, the run performs zero network fetches of
the payload and zero writes to the event sink (it is skipped at
`spurfeedingest.py:572-577`, before any fetch; the identifier-resolution
HEAD/ranged-GET metadata probes are not payload fetches). -/
theorem C5_idempotent_completion (env : FeedEnv) (cp : StoredCheckpoint)
    (hft : env.feed_type ≠ "anonymous-residential/realtime")
    (hen : env.checkpoints_enabled = true)
    (hlock : env.lockBusy = false) (hmeta : env.metadataError = false)
    (hstored : env.stored = CheckpointFile.valid cp)
    (hcpid : cp.feed_identifier = some env.feed_identifier)
    (hdone : cp.completed_date = some env.today) :
    (process_feed env).fetches = 0 ∧ (process_feed env).emitted = [] ∧
    (process_feed env).writes = [] := by
  have hE : effectiveEnabled env = true := by
    simp [effectiveEnabled, hft, hen]
  rw [process_feed_skip env cp hE hlock hmeta hstored hcpid hdone]
  exact ⟨rfl, rfl, rfl⟩

/-- Test environment for C5: the checkpoint for identifier "gen1" records a
completion today, and the current run resolves "gen1" again. -/
def completedEnv : FeedEnv :=
  { feed_type := "anonymous"
    checkpoints_enabled := true
    today := "20261012"
    feed_identifier := "gen1"
    stored := .valid { feed_identifier := some "gen1",
                       completed_date := some "20261012",
                       last_touched_date := some "20261012", offset := some 42 }
    actualStored := .absent
    lockBusy := false
    metadataError := false
    fetchError := false
    stream_feed_identifier := "gen1"
    lines := [.good, .good]
    streamError := false }

/-- C5 witness: the concrete already-completed scenario performs no payload
fetch and no sink write. -/
theorem C5_idempotent_completion_witness :
    (process_feed completedEnv).fetches = 0 ∧
    (process_feed completedEnv).emitted = [] ∧
    (process_feed completedEnv).writes = [] :=
  C5_idempotent_completion completedEnv
    { feed_identifier := some "gen1", completed_date := some "20261012",
      last_touched_date := some "20261012", offset := some 42 }
    (by decide) rfl rfl rfl rfl rfl rfl

/-- C6: a payload of N valid newline-delimited JSON lines plus one
unparseable line, processed from offset 0, emits exactly the N records
(numbered 1..N by parse order) and completes without aborting — the parse
error on the bad line is recovered by the per-line handler
(`spurfeedingest.py:746-747`) and the lines after it are still processed. -/
theorem C6_malformed_line_tolerance (a b : Nat) :
    (process_feed (freshEnv
        (List.replicate a .good ++ .bad :: List.replicate b .good) false)).emitted =
      List.range' 1 (a + b) ∧
    (process_feed (freshEnv
        (List.replicate a .good ++ .bad :: List.replicate b .good) false)).emitted.length =
      a + b ∧
    (process_feed (freshEnv
        (List.replicate a .good ++ .bad :: List.replicate b .good) false)).outcome =
      Outcome.completed := by
  have hg : goodCount (List.replicate a .good ++ .bad :: List.replicate b .good) =
      a + b := by
    rw [goodCount_append, goodCount_replicate]
    show a + goodCount (List.replicate b .good) = a + b
    rw [goodCount_replicate]
  refine ⟨?_, ?_, ?_⟩
  · rw [process_feed_freshEnv]
    show (runLoop true 0 _).emitted = _
    rw [runLoop_emitted, hg, filter_range_zero]
  · rw [process_feed_freshEnv]
    show (runLoop true 0 _).emitted.length = _
    rw [runLoop_emitted, hg, filter_range_zero, List.length_range']
  · rw [process_feed_freshEnv]
    rfl

/-- C7: for the feed type `anonymous-residential/realtime` the checkpoint
flag is forced off (`spurfeedingest.py:514-515`), so the run attempts no
checkpoint-file read, performs no checkpoint write, and processes from
offset 0, regardless of the checkpoint-enable flag and of the on-disk
checkpoint state. -/
theorem C7_realtime_bypass (env : FeedEnv)
    (h : env.feed_type = "anonymous-residential/realtime") :
    (process_feed env).reads = 0 ∧ (process_feed env).writes = [] ∧
    (process_feed env).startOffset = 0 :=
  process_feed_disabled env (by simp [effectiveEnabled, h])

/-- Test environment for C7: realtime feed type with the checkpoint flag ON
and an adversarial on-disk state (an unparseable checkpoint file that would
raise if it were ever read). -/
def realtimeEnv : FeedEnv :=
  { feed_type := "anonymous-residential/realtime"
    checkpoints_enabled := true
    today := "20261012"
    feed_identifier := "gen1"
    stored := .invalid
    actualStored := .invalid
    lockBusy := false
    metadataError := false
    fetchError := false
    stream_feed_identifier := "gen1"
    lines := [.good, .bad, .good]
    streamError := false }

/-- C7 witness: the concrete realtime run with the checkpoint flag on reads
nothing, writes nothing, and starts at offset 0. -/
theorem C7_realtime_bypass_witness :
    (process_feed realtimeEnv).reads = 0 ∧
    (process_feed realtimeEnv).writes = [] ∧
    (process_feed realtimeEnv).startOffset = 0 :=
  C7_realtime_bypass realtimeEnv rfl

/-- C9 counterexample: in a run resumed from offset 5 over 10004 records,
the 10,000th emitted record is the one with parsed number 10004, but the
periodic write fires on the parsed counter (`processed % 10000 == 0`,
`spurfeedingest.py:740`), so no checkpoint write persists offset 10004 —
the claim's "after every 10,000th record emitted" fails for resumed runs. -/
theorem C9_counterexample :
    ¬ periodicMilestones
        (process_feed (resumeEnv 5 (List.replicate 10004 .good) false)) := by
  intro h
  have hme : (process_feed (resumeEnv 5 (List.replicate 10004 .good) false)).emitted =
      List.range' 5 10000 := by
    rw [process_feed_resumeEnv, runLoop_emitted, goodCount_replicate,
      filter_range_ge 5 10004 (by omega) (by omega)]
  have hlen :
      (process_feed (resumeEnv 5 (List.replicate 10004 .good) false)).emitted.length =
      10000 := by
    rw [hme, List.length_range']
  have h1 := h 1 (by omega) (by rw [hlen])
  have hget :
      (process_feed (resumeEnv 5 (List.replicate 10004 .good) false)).emitted.getD
        (10000 * 1 - 1) 0 = 10004 := by
    rw [hme]
    have hidx : 10000 * 1 - 1 < (List.range' 5 10000).length := by
      rw [List.length_range']
      omega
    rw [List.getD_eq_getElem _ _ hidx, List.getElem_range'_1]
  rw [hget, periodicOffsets_resumeEnv] at h1
  have hmod := mod_loop_writes true 5 (List.replicate 10004 .good) 10004 h1
  omega

/-- C9 amended: the periodic checkpoint write fires on the parsed-record
counter, not the emitted count. (a) In a run starting from offset 0 the two
coincide, and after every 10,000th emitted record the current offset is
persisted by a periodic write; (b) in a resumed run every periodic write's
offset is a multiple of 10,000 of the parsed counter, so the writes align
with the emitted count only when the resume offset re-aligns them. -/
theorem C9_amended :
    (∀ lines serr, periodicMilestones (process_feed (freshEnv lines serr))) ∧
    (∀ n lines serr p,
      p ∈ periodicOffsets (process_feed (resumeEnv n lines serr)) →
      p % 10000 = 0) := by
  constructor
  · intro lines serr k hk hle
    have hme : (process_feed (freshEnv lines serr)).emitted =
        List.range' 1 (goodCount lines) := by
      rw [process_feed_freshEnv]
      show (runLoop true 0 lines).emitted = _
      rw [runLoop_emitted, filter_range_zero]
    have hlen : (process_feed (freshEnv lines serr)).emitted.length =
        goodCount lines := by
      rw [hme, List.length_range']
    rw [hlen] at hle
    have hget : (process_feed (freshEnv lines serr)).emitted.getD
        (10000 * k - 1) 0 = 10000 * k := by
      rw [hme]
      have hidx : 10000 * k - 1 < (List.range' 1 (goodCount lines)).length := by
        rw [List.length_range']
        omega
      rw [List.getD_eq_getElem _ _ hidx, List.getElem_range'_1]
      omega
    rw [hget, periodicOffsets_freshEnv, runLoop_writes]
    rw [List.mem_filter, List.mem_range'_1]
    refine ⟨⟨by omega, by omega⟩, ?_⟩
    simp [Nat.mul_mod_right]
  · intro n lines serr p hp
    rw [periodicOffsets_resumeEnv] at hp
    exact mod_loop_writes true n lines p hp

/-- C9 amended witness: the fresh-run milestone property at a concrete
environment. -/
theorem C9_amended_witness :
    periodicMilestones (process_feed (freshEnv [.good, .good] false)) :=
  C9_amended.1 [.good, .good] false
